import Mathlib

/-!
Shallow embedding of the four hook scripts in
`examples/hooks-example/hooks/` (prompt-validator.py, security-validator.py,
stop-controller.py, auto-formatter.py).

Each script reads one JSON document from stdin, applies a fixed rule list and
exits.  We model the successfully parsed input as a record of optional fields
(`HookInput`); a script's observable behaviour is a `HookResult`: the list of
stdout items (structured JSON documents or plain text lines), the stderr
lines, and the exit code.  The only external effect, the formatter subprocess
of auto-formatter.py, is modelled by an explicit `FmtOutcome` argument.

Python's `re` character classes `\w`, `\d`, `\s` and `str.lower` are modelled
over their ASCII meaning (the scripts' patterns and rule strings are all
ASCII).
-/

/-- A structured JSON document printed on stdout, as emitted by
prompt-validator.py: either a block decision with a reason, or a
hookSpecificOutput document carrying additional context. -/
inductive StructuredDoc where
  | block (reason : String)
  | augment (hookEventName : String) (additionalContext : String)
deriving DecidableEq

/-- One item printed on stdout: a structured JSON document or a plain line. -/
inductive StdoutItem where
  | doc (d : StructuredDoc)
  | text (line : String)
deriving DecidableEq

/-- Observable behaviour of one hook invocation. -/
structure HookResult where
  stdout : List StdoutItem
  stderr : List String
  exitCode : Nat
deriving DecidableEq

/-- The `tool_input` mapping; the scripts only read the keys `command` and
`file_path`, each defaulting to `""` when absent (`dict.get` with default). -/
structure ToolInput where
  command : Option String
  file_path : Option String
deriving DecidableEq

/-- A successfully parsed input JSON object.  Every field the four scripts
read is optional; `none` models an absent key. -/
structure HookInput where
  tool_name : Option String
  tool_input : Option ToolInput
  prompt : Option String
  stop_hook_active : Option Bool
deriving DecidableEq

/-- The `tool_input` default `{}` used by `input_data.get("tool_input", {})`. -/
def emptyToolInput : ToolInput := { command := none, file_path := none }

/-- Python `str.lower()` (ASCII model). -/
def pyLower (s : String) : String := String.mk (s.toList.map Char.toLower)

/-- Python `needle in hay` on strings: substring containment. -/
def pyContains (hay needle : String) : Bool := decide (needle.toList <:+: hay.toList)

/-! ### The regular expressions of prompt-validator.py

`re.search` over the five patterns is embedded as scanners over `List Char`.
A scanner tries a match at every position; the previous character is carried
along so that `\b` (word boundary) can be decided.  Greedy quantifiers whose
character class is disjoint from the following literal are matched by maximal
munch (equivalent to the backtracking semantics in that case); the one place
where real backtracking is needed (the domain part of the e-mail pattern,
whose class contains the `.` that must also be matched literally) is encoded
by trying every split. -/

/-- `\w` (ASCII): letters, digits and underscore. -/
def isWordChar (c : Char) : Bool := c.isAlphanum || c == '_'

/-- `\s` (ASCII): space, tab, newline, carriage return, vertical tab, form feed. -/
def isSpaceChar (c : Char) : Bool :=
  c == ' ' || c == '\t' || c == '\n' || c == '\r' || c == Char.ofNat 11 || c == Char.ofNat 12

/-- Whether the next character (if any) is a word character. -/
def headIsWord : List Char → Bool
  | [] => false
  | c :: _ => isWordChar c

/-- Whether the previous character (if any) is a word character. -/
def prevIsWord : Option Char → Bool
  | none => false
  | some c => isWordChar c

/-- `\b`: a word boundary sits between the previous character and the rest of
the input exactly when one side is a word character and the other is not
(string edges count as non-word). -/
def atBoundary (prev : Option Char) (cs : List Char) : Bool :=
  prevIsWord prev != headIsWord cs

/-- Case-insensitive literal match: `matchCI pat cs` consumes `pat` (given in
lower case) from the front of `cs`, comparing each input character after
`Char.toLower`, and returns the rest on success. -/
def matchCI : List Char → List Char → Option (List Char)
  | [], cs => some cs
  | _ :: _, [] => none
  | p :: ps, c :: cs => if Char.toLower c == p then matchCI ps cs else none

/-- Maximal munch for `\s*`. -/
def dropSpaces (cs : List Char) : List Char := cs.dropWhile isSpaceChar

/-- After one of the keywords of pattern 1: `\s*[:=]`.  Since `:` and `=` are
not whitespace, a match exists iff after skipping all whitespace the next
character is `:` or `=`. -/
def keywordTail (rest : List Char) : Bool :=
  match dropSpaces rest with
  | c :: _ => c == ':' || c == '='
  | [] => false

/-- The keyword alternation of pattern 1 applied at the current position
(without the leading boundary check). -/
def p1Core (cs : List Char) : Bool :=
  ["password", "secret", "key", "token"].any fun kw =>
    match matchCI kw.toList cs with
    | some rest => keywordTail rest
    | none => false

/-- Pattern 1, `(?i)\b(password|secret|key|token)\s*[:=]`, at one position. -/
def p1At (prev : Option Char) (cs : List Char) : Bool :=
  atBoundary prev cs && p1Core cs

/-- `(?i)w1\s+w2` at one position: first word, at least one whitespace, second
word.  As the second word starts with a non-whitespace letter, `\s+` is one
whitespace character followed by maximal munch. -/
def phraseAt (w1 w2 : List Char) (cs : List Char) : Bool :=
  match matchCI w1 cs with
  | some (c :: rest) => isSpaceChar c && (matchCI w2 (dropSpaces rest)).isSome
  | some [] => false
  | none => false

/-- Pattern 2, `(?i)delete\s+all`, at one position. -/
def p2At (_ : Option Char) (cs : List Char) : Bool :=
  phraseAt "delete".toList "all".toList cs

/-- Pattern 3, `(?i)drop\s+table`, at one position. -/
def p3At (_ : Option Char) (cs : List Char) : Bool :=
  phraseAt "drop".toList "table".toList cs

/-- `[-\s]`: the optional separator inside the credit-card pattern. -/
def isSepChar (c : Char) : Bool := c == '-' || isSpaceChar c

/-- `\d{n}`: exactly `n` ASCII digits, returning the rest. -/
def matchDigits : Nat → List Char → Option (List Char)
  | 0, cs => some cs
  | _ + 1, [] => none
  | n + 1, c :: cs => if c.isDigit then matchDigits n cs else none

/-- `[-\s]?` followed by a digit: the separator class is disjoint from the
digits, so the optional separator is consumed exactly when present. -/
def skipSep : List Char → List Char
  | [] => []
  | c :: cs => if isSepChar c then cs else c :: cs

/-- The digit groups of pattern 4 (without the leading boundary check):
`\d{4}[-\s]?\d{4}[-\s]?\d{4}[-\s]?\d{4}\b`.  The final `\b` after a digit
holds iff the next character is absent or not a word character. -/
def p4Core (cs : List Char) : Bool :=
  match matchDigits 4 cs with
  | none => false
  | some r1 =>
    match matchDigits 4 (skipSep r1) with
    | none => false
    | some r2 =>
      match matchDigits 4 (skipSep r2) with
      | none => false
      | some r3 =>
        match matchDigits 4 (skipSep r3) with
        | none => false
        | some r4 => !headIsWord r4

/-- Pattern 4, `\b\d{4}[-\s]?\d{4}[-\s]?\d{4}[-\s]?\d{4}\b`, at one position. -/
def p4At (prev : Option Char) (cs : List Char) : Bool :=
  atBoundary prev cs && p4Core cs

/-- `[A-Za-z0-9._%+-]`: the local part class of the e-mail pattern. -/
def isLocalChar (c : Char) : Bool :=
  c.isAlphanum || c == '.' || c == '_' || c == '%' || c == '+' || c == '-'

/-- `[A-Za-z0-9.-]`: the domain class of the e-mail pattern. -/
def isDomChar (c : Char) : Bool := c.isAlphanum || c == '.' || c == '-'

/-- `[A-Za-z]{2,}\b`: at least two letters then a word boundary.  Stopping the
greedy run early would leave a letter (a word character) as the next
character, so only the maximal run can be followed by a boundary. -/
def tldAt (cs : List Char) : Bool :=
  let run := cs.takeWhile Char.isAlpha
  decide (2 ≤ run.length) && !headIsWord (cs.drop run.length)

/-- The domain of the e-mail pattern after its first character:
`[A-Za-z0-9.-]*\.[A-Za-z]{2,}\b` with full backtracking — at each position
the current character may serve as the literal `.` (ending the greedy class
run) or be consumed by the class run, and both alternatives are tried. -/
def domRest : List Char → Bool
  | [] => false
  | c :: cs => (c == '.' && tldAt cs) || (isDomChar c && domRest cs)

/-- The e-mail pattern (without the leading boundary check):
`[A-Za-z0-9._%+-]+@[A-Za-z0-9.-]+\.[A-Za-z]{2,}\b`.  `@` is not in the local
class, so the local `+` is maximal munch. -/
def p5Core (cs : List Char) : Bool :=
  let run := cs.takeWhile isLocalChar
  decide (1 ≤ run.length) &&
    match cs.drop run.length with
    | '@' :: c :: rest => isDomChar c && domRest rest
    | _ => false

/-- Pattern 5, `\b[A-Za-z0-9._%+-]+@[A-Za-z0-9.-]+\.[A-Za-z]{2,}\b`, at one
position. -/
def p5At (prev : Option Char) (cs : List Char) : Bool :=
  atBoundary prev cs && p5Core cs

/-- `re.search`: try the position matcher at every position (including the
empty position at the end), threading the previous character. -/
def searchAux (m : Option Char → List Char → Bool) : Option Char → List Char → Bool
  | prev, [] => m prev []
  | prev, c :: cs => m prev (c :: cs) || searchAux m (some c) cs

/-- `re.search(pattern, s)` is truthy. -/
def reSearch (m : Option Char → List Char → Bool) (s : String) : Bool :=
  searchAux m none s.toList

/-- The ordered `sensitive_patterns` list of prompt-validator.py, as position
matchers paired with their descriptions. -/
def sensitivePatterns : List ((Option Char → List Char → Bool) × String) :=
  [(p1At, "Password/Secret detected"),
   (p2At, "Dangerous delete operation"),
   (p3At, "Dangerous SQL operation"),
   (p4At, "Credit card number pattern"),
   (p5At, "Email address")]

/-- The `for pattern, description in sensitive_patterns` loop: the description
of the first pattern that `re.search` finds in the prompt, if any. -/
def firstMatchAux : List ((Option Char → List Char → Bool) × String) → String → Option String
  | [], _ => none
  | pd :: rest, p => if reSearch pd.1 p then some pd.2 else firstMatchAux rest p

/-- First matching sensitive pattern of the prompt. -/
def firstMatch (p : String) : Option String := firstMatchAux sensitivePatterns p

/-- The additionalContext string for very short prompts. -/
def augmentNote : String :=
  "Note: This is a very short prompt. Consider providing more context for better results."

/-- The block reason for over-long prompts. -/
def lengthBlockReason : String := "Prompt is too long (>10000 characters)"

/-- prompt-validator.py after a successful `json.load`, as a function of the
prompt string (`input_data.get("prompt", "")`). -/
def promptValidator (prompt : String) : HookResult :=
  match firstMatch prompt with
  | some description =>
    { stdout :=
        [ StdoutItem.doc (StructuredDoc.block
            ("Prompt contains potentially sensitive information: " ++ description))],
      stderr := [], exitCode := 0 }
  | none =>
    if prompt.length > 10000 then
      { stdout := [ StdoutItem.doc (StructuredDoc.block lengthBlockReason)],
        stderr := [], exitCode := 0 }
    else if prompt.length < 10 then
      { stdout := [ StdoutItem.doc (StructuredDoc.augment "UserPromptSubmit" augmentNote)],
        stderr := [], exitCode := 0 }
    else
      { stdout := [], stderr := [], exitCode := 0 }

/-- prompt-validator.py on a parsed input object. -/
def promptValidatorRun (input_data : HookInput) : HookResult :=
  promptValidator (input_data.prompt.getD "")

/-- The `dangerous_commands` list of security-validator.py. -/
def dangerous_commands : List String := ["rm -rf", "sudo", "format", "fdisk", "mkfs"]

/-- The `sensitive_files` list of security-validator.py. -/
def sensitive_files : List String := [".env", "secrets", "id_rsa", "config.json"]

/-- `any(cmd in command.lower() for cmd in dangerous_commands)`. -/
def dangerousHit (command : String) : Bool :=
  dangerous_commands.any fun cmd => pyContains (pyLower command) cmd

/-- `any(sensitive in file_path.lower() for sensitive in sensitive_files)`. -/
def sensitiveHit (file_path : String) : Bool :=
  sensitive_files.any fun sensitive => pyContains (pyLower file_path) sensitive

/-- security-validator.py after a successful `json.load`. -/
def securityValidator (input_data : HookInput) : HookResult :=
  let tool_name := input_data.tool_name.getD ""
  let tool_input := input_data.tool_input.getD emptyToolInput
  if tool_name == "Bash" && dangerousHit (tool_input.command.getD "") then
    { stdout := [], stderr := ["Security violation: Dangerous command blocked"], exitCode := 2 }
  else if tool_name == "Write" && sensitiveHit (tool_input.file_path.getD "") then
    { stdout := [], stderr := ["Security violation: Cannot write to sensitive files"],
      exitCode := 2 }
  else
    { stdout := [ StdoutItem.text "Security check passed"], stderr := [], exitCode := 0 }

/-- The completion acknowledgment printed by stop-controller.py. -/
def stopDoneMessage : String := "Claude Code execution completed successfully"

/-- stop-controller.py after a successful `json.load`. -/
def stopController (input_data : HookInput) : HookResult :=
  let stop_hook_active := input_data.stop_hook_active.getD false
  if stop_hook_active then
    { stdout := [], stderr := [], exitCode := 0 }
  else
    { stdout := [ StdoutItem.text stopDoneMessage], stderr := [], exitCode := 0 }

/-- Outcome of the external formatter subprocess in auto-formatter.py:
the binary was not found (`FileNotFoundError`), the 10-second bound expired
(`subprocess.TimeoutExpired`), or the process exited with a return code. -/
inductive FmtOutcome where
  | notFound
  | timedOut
  | exited (returncode : Int)
deriving DecidableEq

/-- The `try: subprocess.run(...) except` block of auto-formatter.py for one
formatter (`name` is "Black" or "Prettier"): the stdout lines produced. -/
def formatWith (name : String) (file_path : String) (fmt : FmtOutcome) : List StdoutItem :=
  match fmt with
  | FmtOutcome.exited r =>
    if r == 0 then [ StdoutItem.text ("✅ Auto-formatted: " ++ file_path)]
    else [ StdoutItem.text ("⚠️ Failed to format: " ++ file_path)]
  | FmtOutcome.timedOut =>
    [ StdoutItem.text ("⚠️ " ++ name ++ " formatter not available for: " ++ file_path)]
  | FmtOutcome.notFound =>
    [ StdoutItem.text ("⚠️ " ++ name ++ " formatter not available for: " ++ file_path)]

/-- auto-formatter.py after a successful `json.load`; `fmt` is the outcome the
environment provides for the (at most one) subprocess invocation. -/
def autoFormatter (input_data : HookInput) (fmt : FmtOutcome) : HookResult :=
  let tool_name := input_data.tool_name.getD ""
  let tool_input := input_data.tool_input.getD emptyToolInput
  if tool_name == "Write" then
    let file_path := tool_input.file_path.getD ""
    if file_path.endsWith ".py" then
      { stdout := formatWith "Black" file_path fmt, stderr := [], exitCode := 0 }
    else if file_path.endsWith ".js" || file_path.endsWith ".ts" then
      { stdout := formatWith "Prettier" file_path fmt, stderr := [], exitCode := 0 }
    else
      { stdout := [], stderr := [], exitCode := 0 }
  else
    { stdout := [], stderr := [], exitCode := 0 }

/-- An input in which each absent optional field has been replaced by the
empty value of its type, at the `tool_input` level. -/
def ToolInput.defaulted (t : ToolInput) : ToolInput :=
  { command := some (t.command.getD ""), file_path := some (t.file_path.getD "") }

/-- An input in which each absent optional field has been replaced by the
empty value of its type: empty string, empty mapping, false. -/
def HookInput.defaulted (i : HookInput) : HookInput :=
  { tool_name := some (i.tool_name.getD ""),
    tool_input := some ((i.tool_input.getD emptyToolInput).defaulted),
    prompt := some (i.prompt.getD ""),
    stop_hook_active := some (i.stop_hook_active.getD false) }

example : promptValidator "hi" =
    { stdout := [ StdoutItem.doc (StructuredDoc.augment "UserPromptSubmit" augmentNote)],
      stderr := [], exitCode := 0 } := by decide

example : promptValidator "my PASSWORD : hunter2" =
    { stdout :=
        [ StdoutItem.doc (StructuredDoc.block
            "Prompt contains potentially sensitive information: Password/Secret detected")],
      stderr := [], exitCode := 0 } := by decide

example : firstMatch "mail me at a.b@test.co soon" = some "Email address" := by decide

example : firstMatch "card 1234-5678 9012 3456 end" = some "Credit card number pattern" := by
  decide

example : firstMatch "please DELETE  all rows" = some "Dangerous delete operation" := by decide

example : firstMatch "a plain enough prompt" = none := by decide

/-! ### Shared helper lemmas -/

theorem promptValidator_exitCode (p : String) : (promptValidator p).exitCode = 0 := by
  unfold promptValidator
  split
  · rfl
  · split
    · rfl
    · split <;> rfl

theorem securityValidator_exitCode (i : HookInput) :
    (securityValidator i).exitCode = 2 ∨ (securityValidator i).exitCode = 0 := by
  simp only [securityValidator]
  split
  · exact Or.inl rfl
  · split
    · exact Or.inl rfl
    · exact Or.inr rfl

theorem stopController_exitCode (i : HookInput) : (stopController i).exitCode = 0 := by
  simp only [stopController]
  split <;> rfl

theorem autoFormatter_exitCode (i : HookInput) (fmt : FmtOutcome) :
    (autoFormatter i fmt).exitCode = 0 := by
  simp only [autoFormatter]
  split
  · split
    · rfl
    · split <;> rfl
  · rfl

/-- C1: for every parsed input JSON object in which optional fields are
absent, each of the four hook scripts behaves exactly as if the absent fields
held the empty value of the appropriate type (empty string, empty mapping,
false), and none of the four ever exits with the internal-fault code 1. -/
theorem hooks_tolerate_missing_fields (i : HookInput) (fmt : FmtOutcome) :
    promptValidatorRun i = promptValidatorRun i.defaulted ∧
    securityValidator i = securityValidator i.defaulted ∧
    stopController i = stopController i.defaulted ∧
    autoFormatter i fmt = autoFormatter i.defaulted fmt ∧
    (promptValidatorRun i).exitCode ≠ 1 ∧
    (securityValidator i).exitCode ≠ 1 ∧
    (stopController i).exitCode ≠ 1 ∧
    (autoFormatter i fmt).exitCode ≠ 1 := by
  refine ⟨?_, ?_, ?_, ?_, ?_, ?_, ?_, ?_⟩
  · simp [promptValidatorRun, HookInput.defaulted]
  · simp [securityValidator, HookInput.defaulted, ToolInput.defaulted]
  · simp [stopController, HookInput.defaulted]
  · simp [autoFormatter, HookInput.defaulted, ToolInput.defaulted]
  · rw [promptValidatorRun, promptValidator_exitCode]
    exact Nat.zero_ne_one
  · rcases securityValidator_exitCode i with h | h <;> rw [h] <;> omega
  · rw [stopController_exitCode]
    exact Nat.zero_ne_one
  · rw [autoFormatter_exitCode]
    exact Nat.zero_ne_one

/-! ### C2: the password-colon pattern -/

/-- The claim's hypothesis pattern at one position: the word `password` (any
case, at a word boundary) followed by optional whitespace and a colon.  This
is the instance of pattern 1 singled out by the claim. -/
def pwColonTail (rest : List Char) : Bool :=
  match dropSpaces rest with
  | c :: _ => c == ':'
  | [] => false

def pwColonAt (prev : Option Char) (cs : List Char) : Bool :=
  atBoundary prev cs &&
    match matchCI "password".toList cs with
    | some rest => pwColonTail rest
    | none => false

/-- The claim's hypothesis: the prompt contains, at a word boundary, the word
`password` (any case) followed by optional whitespace and a colon. -/
def matchesPasswordColon (p : String) : Bool := reSearch pwColonAt p

theorem pwColonTail_implies (rest : List Char) (h : pwColonTail rest = true) :
    keywordTail rest = true := by
  unfold pwColonTail at h
  unfold keywordTail
  cases hd : dropSpaces rest with
  | nil =>
    rw [hd] at h
    exact absurd h (by simp)
  | cons c cs =>
    rw [hd] at h
    dsimp only at h ⊢
    rw [Bool.or_eq_true]
    exact Or.inl h

theorem pwColonAt_implies_p1At (prev : Option Char) (cs : List Char)
    (h : pwColonAt prev cs = true) : p1At prev cs = true := by
  unfold pwColonAt at h
  unfold p1At
  rw [Bool.and_eq_true] at h ⊢
  refine ⟨h.1, ?_⟩
  have h2 := h.2
  unfold p1Core
  rw [List.any_eq_true]
  refine ⟨"password", by simp, ?_⟩
  cases heq : matchCI "password".toList cs with
  | none =>
    rw [heq] at h2
    exact absurd h2 (by simp)
  | some rest =>
    rw [heq] at h2
    dsimp only at h2 ⊢
    exact pwColonTail_implies rest h2

theorem searchAux_mono (m₁ m₂ : Option Char → List Char → Bool)
    (hm : ∀ prev cs, m₁ prev cs = true → m₂ prev cs = true) :
    ∀ prev cs, searchAux m₁ prev cs = true → searchAux m₂ prev cs = true := by
  intro prev cs
  induction cs generalizing prev with
  | nil =>
    intro h
    exact hm _ _ h
  | cons c cs ih =>
    intro h
    unfold searchAux at h ⊢
    rw [Bool.or_eq_true] at h ⊢
    rcases h with h | h
    · exact Or.inl (hm _ _ h)
    · exact Or.inr (ih _ h)

/-- The literal block reason for pattern 1. -/
def pwBlockReason : String :=
  "Prompt contains potentially sensitive information: Password/Secret detected"

/-- C2: every prompt containing `password:` (any case, optional whitespace
before the colon, at a word boundary) makes the prompt validator emit exactly
one structured JSON document — a block whose reason contains
"Password/Secret detected" — with no augment output and exit status 0. -/
theorem prompt_password_blocks (p : String) (h : matchesPasswordColon p = true) :
    promptValidator p =
      { stdout := [ StdoutItem.doc (StructuredDoc.block pwBlockReason)],
        stderr := [], exitCode := 0 } ∧
    pyContains pwBlockReason "Password/Secret detected" = true := by
  have h1 : reSearch p1At p = true :=
    searchAux_mono pwColonAt p1At pwColonAt_implies_p1At none p.toList h
  constructor
  · have hfm : firstMatch p = some "Password/Secret detected" := by
      unfold firstMatch sensitivePatterns firstMatchAux
      simp [h1]
    unfold promptValidator
    rw [hfm]
    dsimp only
    decide
  · decide

/-- Witness for C2 at the concrete prompt "My password: hunter2". -/
theorem prompt_password_blocks_witness :
    matchesPasswordColon "My password: hunter2" = true ∧
    (promptValidator "My password: hunter2" =
      { stdout := [ StdoutItem.doc (StructuredDoc.block pwBlockReason)],
        stderr := [], exitCode := 0 } ∧
     pyContains pwBlockReason "Password/Secret detected" = true) :=
  ⟨by decide, prompt_password_blocks "My password: hunter2" (by decide)⟩

/-! ### C3: the short-prompt boundary -/

/-- C3: when no sensitive pattern matches, a 9-character prompt yields the
augment document (exit 0) and a 10-character prompt yields no output at all
(exit 0): the short-prompt boundary sits at length 10. -/
theorem prompt_short_boundary (p : String) (h : firstMatch p = none) :
    (p.length = 9 →
      promptValidator p =
        { stdout := [ StdoutItem.doc (StructuredDoc.augment "UserPromptSubmit" augmentNote)],
          stderr := [], exitCode := 0 }) ∧
    (p.length = 10 → promptValidator p = { stdout := [], stderr := [], exitCode := 0 }) := by
  constructor
  · intro h9
    unfold promptValidator
    rw [h]
    dsimp only
    rw [h9]
    norm_num
  · intro h10
    unfold promptValidator
    rw [h]
    dsimp only
    rw [h10]
    norm_num

/-- Witness for C3 at the 9-character prompt "what now?". -/
theorem prompt_short_boundary_witness :
    firstMatch "what now?" = none ∧ ("what now?").length = 9 ∧
    promptValidator "what now?" =
      { stdout := [ StdoutItem.doc (StructuredDoc.augment "UserPromptSubmit" augmentNote)],
        stderr := [], exitCode := 0 } :=
  ⟨by decide, by decide,
    (prompt_short_boundary "what now?" (by decide)).1 (by decide)⟩

/-! ### C4: the length rule and first-match-wins ordering -/

/-- C4: pattern rules are tried before the length rule.  If no pattern
matches and the prompt is longer than 10000 characters, the validator blocks
with the length-specific reason; if some pattern matches, the pattern block
is emitted whatever the length, so the length check is never reached. -/
theorem prompt_length_block_and_order (p : String) :
    (firstMatch p = none → p.length > 10000 →
      promptValidator p =
        { stdout := [ StdoutItem.doc (StructuredDoc.block lengthBlockReason)],
          stderr := [], exitCode := 0 }) ∧
    (∀ d, firstMatch p = some d →
      promptValidator p =
        { stdout :=
            [ StdoutItem.doc (StructuredDoc.block
                ("Prompt contains potentially sensitive information: " ++ d))],
          stderr := [], exitCode := 0 }) := by
  constructor
  · intro h hlen
    unfold promptValidator
    rw [h]
    dsimp only
    rw [if_pos hlen]
  · intro d h
    unfold promptValidator
    rw [h]

/-- A 10001-character prompt consisting of exclamation marks. -/
def longPrompt : String := String.mk (List.replicate 10001 '!')

theorem p1At_nil (prev : Option Char) : p1At prev [] = false := by
  unfold p1At
  rw [show p1Core [] = false from rfl]
  exact Bool.and_false _

theorem p1At_bang (prev : Option Char) (rest : List Char) :
    p1At prev ('!' :: rest) = false := by
  unfold p1At
  rw [show p1Core ('!' :: rest) = false from rfl]
  exact Bool.and_false _

theorem p2At_nil (prev : Option Char) : p2At prev [] = false := rfl

theorem p2At_bang (prev : Option Char) (rest : List Char) :
    p2At prev ('!' :: rest) = false := rfl

theorem p3At_nil (prev : Option Char) : p3At prev [] = false := rfl

theorem p3At_bang (prev : Option Char) (rest : List Char) :
    p3At prev ('!' :: rest) = false := rfl

theorem p4At_nil (prev : Option Char) : p4At prev [] = false := by
  unfold p4At
  rw [show p4Core [] = false from rfl]
  exact Bool.and_false _

theorem p4At_bang (prev : Option Char) (rest : List Char) :
    p4At prev ('!' :: rest) = false := by
  unfold p4At
  rw [show p4Core ('!' :: rest) = false from rfl]
  exact Bool.and_false _

theorem p5At_nil (prev : Option Char) : p5At prev [] = false := by
  unfold p5At
  rw [show p5Core [] = false from rfl]
  exact Bool.and_false _

theorem p5At_bang (prev : Option Char) (rest : List Char) :
    p5At prev ('!' :: rest) = false := by
  unfold p5At
  rw [show p5Core ('!' :: rest) = false from rfl]
  exact Bool.and_false _

theorem searchAux_bang (m : Option Char → List Char → Bool)
    (hnil : ∀ prev, m prev [] = false)
    (hcons : ∀ prev rest, m prev ('!' :: rest) = false) :
    ∀ prev n, searchAux m prev (List.replicate n '!') = false := by
  intro prev n
  induction n generalizing prev with
  | zero =>
    exact hnil prev
  | succ k ih =>
    rw [List.replicate_succ]
    unfold searchAux
    rw [hcons, ih]
    rfl

theorem firstMatch_longPrompt : firstMatch longPrompt = none := by
  have e1 : reSearch p1At longPrompt = false := searchAux_bang p1At p1At_nil p1At_bang none 10001
  have e2 : reSearch p2At longPrompt = false := searchAux_bang p2At p2At_nil p2At_bang none 10001
  have e3 : reSearch p3At longPrompt = false := searchAux_bang p3At p3At_nil p3At_bang none 10001
  have e4 : reSearch p4At longPrompt = false := searchAux_bang p4At p4At_nil p4At_bang none 10001
  have e5 : reSearch p5At longPrompt = false := searchAux_bang p5At p5At_nil p5At_bang none 10001
  unfold firstMatch sensitivePatterns
  simp only [firstMatchAux, e1, e2, e3, e4, e5, if_false, Bool.false_eq_true]

theorem longPrompt_length : longPrompt.length = 10001 := by
  show (List.replicate 10001 '!').length = 10001
  rw [List.length_replicate]

/-- Witness for C4: the 10001-character prompt of exclamation marks matches
no sensitive pattern and is blocked for its length. -/
theorem prompt_length_block_witness :
    firstMatch longPrompt = none ∧ longPrompt.length > 10000 ∧
    promptValidator longPrompt =
      { stdout := [ StdoutItem.doc (StructuredDoc.block lengthBlockReason)],
        stderr := [], exitCode := 0 } :=
  ⟨firstMatch_longPrompt, by rw [longPrompt_length]; norm_num,
    (prompt_length_block_and_order longPrompt).1 firstMatch_longPrompt
      (by rw [longPrompt_length]; norm_num)⟩

/-! ### C5 and C6: security-validator.py -/

/-- One concrete Bash input for the witnesses. -/
def bashSudoInput : HookInput :=
  { tool_name := some "Bash",
    tool_input := some { command := some "sudo apt install curl", file_path := none },
    prompt := none, stop_hook_active := none }

/-- A Bash input with a harmless command. -/
def bashOkInput : HookInput :=
  { tool_name := some "Bash",
    tool_input := some { command := some "ls -la /home", file_path := none },
    prompt := none, stop_hook_active := none }

/-- C5: on a Bash input, if the lower-cased command contains one of the fixed
dangerous substrings the validator prints the violation on stderr, emits
nothing structured on stdout, and exits 2; otherwise it exits 0.  Any command
containing "sudo apt install" in particular contains "sudo" after
lower-casing, so it is blocked. -/
theorem security_bash_commands (i : HookInput) (h : i.tool_name = some "Bash") :
    (dangerousHit ((i.tool_input.getD emptyToolInput).command.getD "") = true →
      securityValidator i =
        { stdout := [], stderr := ["Security violation: Dangerous command blocked"],
          exitCode := 2 }) ∧
    (dangerousHit ((i.tool_input.getD emptyToolInput).command.getD "") = false →
      (securityValidator i).exitCode = 0) ∧
    (∀ c : String, pyContains c "sudo apt install" = true → dangerousHit c = true) := by
  refine ⟨?_, ?_, ?_⟩
  · intro hhit
    simp [securityValidator, h, hhit]
  · intro hmiss
    simp [securityValidator, h, hmiss]
  · intro c hc
    have h1 : "sudo apt install".toList <:+: c.toList := of_decide_eq_true hc
    have h2 : "sudo apt install".toList.map Char.toLower <:+: c.toList.map Char.toLower :=
      h1.map Char.toLower
    have h3 : "sudo".toList <:+: "sudo apt install".toList.map Char.toLower := by decide
    have h4 : "sudo".toList <:+: (pyLower c).toList := h3.trans h2
    unfold dangerousHit
    rw [List.any_eq_true]
    refine ⟨"sudo", by simp [dangerous_commands], ?_⟩
    exact decide_eq_true h4

/-- Witness for C5: "sudo apt install curl" is blocked with exit 2, and
"ls -la /home" passes with exit 0. -/
theorem security_bash_commands_witness :
    (bashSudoInput.tool_name = some "Bash" ∧
     securityValidator bashSudoInput =
       { stdout := [], stderr := ["Security violation: Dangerous command blocked"],
         exitCode := 2 }) ∧
    (securityValidator bashOkInput).exitCode = 0 ∧
    pyContains "sudo apt install curl" "sudo apt install" = true :=
  ⟨⟨rfl, (security_bash_commands bashSudoInput rfl).1 (by decide)⟩,
    (security_bash_commands bashOkInput rfl).2.1 (by decide),
    by decide⟩

/-- Concrete Write inputs for the C6 witnesses. -/
def writeEnvInput : HookInput :=
  { tool_name := some "Write",
    tool_input := some { command := none, file_path := some "/tmp/.env" },
    prompt := none, stop_hook_active := none }

def writeNotesInput : HookInput :=
  { tool_name := some "Write",
    tool_input := some { command := none, file_path := some "/tmp/notes.txt" },
    prompt := none, stop_hook_active := none }

/-- C6: on a Write input, if the lower-cased file path contains one of the
fixed sensitive substrings the validator exits 2, otherwise it prints the
pass confirmation and exits 0. -/
theorem security_write_paths (i : HookInput) (h : i.tool_name = some "Write") :
    (sensitiveHit ((i.tool_input.getD emptyToolInput).file_path.getD "") = true →
      securityValidator i =
        { stdout := [], stderr := ["Security violation: Cannot write to sensitive files"],
          exitCode := 2 }) ∧
    (sensitiveHit ((i.tool_input.getD emptyToolInput).file_path.getD "") = false →
      securityValidator i =
        { stdout := [ StdoutItem.text "Security check passed"], stderr := [],
          exitCode := 0 }) := by
  constructor
  · intro hhit
    simp [securityValidator, h, hhit]
  · intro hmiss
    simp [securityValidator, h, hmiss]

/-- Witness for C6: writing "/tmp/.env" is blocked with exit 2, writing
"/tmp/notes.txt" passes with exit 0. -/
theorem security_write_paths_witness :
    (writeEnvInput.tool_name = some "Write" ∧
     securityValidator writeEnvInput =
       { stdout := [], stderr := ["Security violation: Cannot write to sensitive files"],
         exitCode := 2 }) ∧
    securityValidator writeNotesInput =
      { stdout := [ StdoutItem.text "Security check passed"], stderr := [], exitCode := 0 } :=
  ⟨⟨rfl, (security_write_paths writeEnvInput rfl).1 (by decide)⟩,
    (security_write_paths writeNotesInput rfl).2 (by decide)⟩

/-! ### C7: stop-controller.py -/

/-- The input `{"stop_hook_active": true}`. -/
def stopActiveInput : HookInput :=
  { tool_name := none, tool_input := none, prompt := none, stop_hook_active := some true }

/-- The input `{}`. -/
def emptyInput : HookInput :=
  { tool_name := none, tool_input := none, prompt := none, stop_hook_active := none }

/-- C7: when the stop flag is true the stop controller exits 0 with no
output; when the flag is absent or false it prints the completion
acknowledgment and exits 0.  In both cases the exit status is 0 and nothing
structured is emitted. -/
theorem stop_controller_behavior (i : HookInput) :
    (i.stop_hook_active = some true →
      stopController i = { stdout := [], stderr := [], exitCode := 0 }) ∧
    (i.stop_hook_active = none ∨ i.stop_hook_active = some false →
      stopController i =
        { stdout := [ StdoutItem.text stopDoneMessage], stderr := [], exitCode := 0 }) := by
  constructor
  · intro h
    simp [stopController, h]
  · rintro (h | h) <;> simp [stopController, h]

/-- Witness for C7 at the two inputs named by the claim. -/
theorem stop_controller_behavior_witness :
    stopController stopActiveInput = { stdout := [], stderr := [], exitCode := 0 } ∧
    stopController emptyInput =
      { stdout := [ StdoutItem.text stopDoneMessage], stderr := [], exitCode := 0 } :=
  ⟨(stop_controller_behavior stopActiveInput).1 rfl,
    (stop_controller_behavior emptyInput).2 (Or.inl rfl)⟩

/-! ### C8: auto-formatter.py failures are soft -/

/-- The formatter invocation failed: binary absent, timed out, or nonzero
return code. -/
def fmtFailed : FmtOutcome → Bool
  | FmtOutcome.exited r => r != 0
  | FmtOutcome.timedOut => true
  | FmtOutcome.notFound => true

theorem toListAppend (a b : String) : (a ++ b).toList = a.toList ++ b.toList := by
  cases a
  cases b
  rfl

theorem warnPre (a b : String) (h : "⚠️".toList <+: a.toList) :
    "⚠️".toList <+: (a ++ b).toList := by
  rw [toListAppend]
  exact h.trans (List.prefix_append _ _)

theorem formatWith_failed (name fp : String) (fmt : FmtOutcome) (h : fmtFailed fmt = true) :
    ∃ s : String, formatWith name fp fmt = [StdoutItem.text s] ∧
      "⚠️".toList <+: s.toList := by
  cases fmt with
  | exited r =>
    have hr : (r == 0) = false := by
      unfold fmtFailed at h
      simpa using h
    refine ⟨"⚠️ Failed to format: " ++ fp, ?_, warnPre _ _ (by decide)⟩
    unfold formatWith
    dsimp only
    simp [hr]
  | timedOut =>
    exact ⟨"⚠️ " ++ name ++ " formatter not available for: " ++ fp, by rfl,
      warnPre _ _ (warnPre _ _ (warnPre _ _ (by decide)))⟩
  | notFound =>
    exact ⟨"⚠️ " ++ name ++ " formatter not available for: " ++ fp, by rfl,
      warnPre _ _ (warnPre _ _ (warnPre _ _ (by decide)))⟩

/-- C8: whatever the outcome of the external formatter — absent binary,
timeout after the 10-second bound, or nonzero exit — auto-formatter.py exits
with status 0, writes nothing to stderr, and on a failed formatting prints at
most one warning line (a stdout line starting with the warning marker); the
formatting outcome never changes the overall allow decision. -/
theorem auto_formatter_soft (i : HookInput) (fmt : FmtOutcome) :
    (autoFormatter i fmt).exitCode = 0 ∧
    (autoFormatter i fmt).stderr = [] ∧
    (fmtFailed fmt = true →
      (autoFormatter i fmt).stdout = [] ∨
      ∃ s : String, (autoFormatter i fmt).stdout = [StdoutItem.text s] ∧
        "⚠️".toList <+: s.toList) := by
  refine ⟨autoFormatter_exitCode i fmt, ?_, ?_⟩
  · simp only [autoFormatter]
    split
    · split
      · rfl
      · split <;> rfl
    · rfl
  · intro h
    simp only [autoFormatter]
    split
    · split
      · exact Or.inr (formatWith_failed _ _ fmt h)
      · split
        · exact Or.inr (formatWith_failed _ _ fmt h)
        · exact Or.inl rfl
    · exact Or.inl rfl

/-- A Write input for a Python file. -/
def pyWriteInput : HookInput :=
  { tool_name := some "Write",
    tool_input := some { command := none, file_path := some "script.py" },
    prompt := none, stop_hook_active := none }

/-- Witness for C8: a timed-out formatter on a .py write still exits 0 with
only a warning. -/
theorem auto_formatter_soft_witness :
    fmtFailed FmtOutcome.timedOut = true ∧
    ((autoFormatter pyWriteInput FmtOutcome.timedOut).exitCode = 0 ∧
     (autoFormatter pyWriteInput FmtOutcome.timedOut).stderr = [] ∧
     ((autoFormatter pyWriteInput FmtOutcome.timedOut).stdout = [] ∨
      ∃ s : String,
        (autoFormatter pyWriteInput FmtOutcome.timedOut).stdout = [StdoutItem.text s] ∧
          "⚠️".toList <+: s.toList)) :=
  ⟨rfl,
    (auto_formatter_soft pyWriteInput FmtOutcome.timedOut).1,
    (auto_formatter_soft pyWriteInput FmtOutcome.timedOut).2.1,
    (auto_formatter_soft pyWriteInput FmtOutcome.timedOut).2.2 rfl⟩

/-! ### C9: determinism across invocations -/

/-- One invocation of all four hooks on the same parsed input and the same
external-environment outcome. -/
def invocation (i : HookInput) (fmt : FmtOutcome) :
    HookResult × HookResult × HookResult × HookResult :=
  (promptValidatorRun i, securityValidator i, stopController i, autoFormatter i fmt)

/-- C9: the hooks are deterministic — two separate invocations on the same
input document, with identical external-environment results, produce the same
decisions and exit statuses.  In this embedding each hook is a pure function
of the input and the environment outcome, so equal inputs give equal
results. -/
theorem hooks_deterministic (i₁ i₂ : HookInput) (f₁ f₂ : FmtOutcome)
    (hi : i₁ = i₂) (hf : f₁ = f₂) : invocation i₁ f₁ = invocation i₂ f₂ := by
  rw [hi, hf]

/-- Witness for C9 at the empty input. -/
theorem hooks_deterministic_witness :
    emptyInput = emptyInput ∧ FmtOutcome.notFound = FmtOutcome.notFound ∧
    invocation emptyInput FmtOutcome.notFound = invocation emptyInput FmtOutcome.notFound :=
  ⟨rfl, rfl,
    hooks_deterministic emptyInput emptyInput FmtOutcome.notFound FmtOutcome.notFound rfl rfl⟩

/-! ### C10: the security checks are keyed on the exact tool name -/

/-- An Edit input whose tool_input holds both a dangerous command and a
sensitive path. -/
def editInput : HookInput :=
  { tool_name := some "Edit",
    tool_input := some { command := some "rm -rf /", file_path := some "/tmp/.env" },
    prompt := none, stop_hook_active := none }

/-- C10: the dangerous-command check fires only for tool_name "Bash" and the
sensitive-path check only for tool_name "Write"; any other tool name passes
with the confirmation line and exit 0, whatever tool_input contains. -/
theorem security_other_tools (i : HookInput)
    (h1 : i.tool_name.getD "" ≠ "Bash") (h2 : i.tool_name.getD "" ≠ "Write") :
    securityValidator i =
      { stdout := [ StdoutItem.text "Security check passed"], stderr := [],
        exitCode := 0 } := by
  have e1 : (i.tool_name.getD "" == "Bash") = false := beq_eq_false_iff_ne.mpr h1
  have e2 : (i.tool_name.getD "" == "Write") = false := beq_eq_false_iff_ne.mpr h2
  simp [securityValidator, e1, e2]

/-- Witness for C10: an Edit input carrying both "rm -rf" and ".env" still
passes. -/
theorem security_other_tools_witness :
    editInput.tool_name.getD "" ≠ "Bash" ∧ editInput.tool_name.getD "" ≠ "Write" ∧
    securityValidator editInput =
      { stdout := [ StdoutItem.text "Security check passed"], stderr := [],
        exitCode := 0 } :=
  ⟨by decide, by decide, security_other_tools editInput (by decide) (by decide)⟩
